import Mathlib

/-!
Verification development for `gammapy/catalog/fermi.py` (Fermi-LAT catalog
and source classes).

The Python module is shallowly embedded: IEEE floating-point scalars drawn
from catalog columns are modelled by the type `FL` below, a rational number
or NaN, with arithmetic propagating NaN and with NumPy comparison semantics
(every ordering or equality comparison involving NaN is false).  Masked
values of `numpy.ma` behave like NaN in every comparison this module
performs, so they are represented by `FL.nan` as well.  NumPy boolean-mask
assignment over an array column is modelled row by row.  Astropy tables are
modelled as Lean structures holding one column value per field, and a table
builder becomes a map over the list of per-band input records.  External
collaborators (`Model.create`, `FluxPoints.from_maps`, file reading) are
represented by records carrying exactly the data the Python code passes to
them.
-/

/-- A floating-point scalar from a catalog column: NaN or a rational. -/
inductive FL where
  | nan : FL
  | val : ℚ → FL
deriving DecidableEq

namespace FL

/-- Addition; NaN propagates, as in IEEE arithmetic. -/
def add : FL → FL → FL
  | val a, val b => val (a + b)
  | _, _ => nan

/-- Multiplication; NaN propagates. -/
def mul : FL → FL → FL
  | val a, val b => val (a * b)
  | _, _ => nan

/-- Subtraction; NaN propagates. -/
def sub : FL → FL → FL
  | val a, val b => val (a - b)
  | _, _ => nan

/-- Negation; NaN propagates. -/
def neg : FL → FL
  | val a => val (-a)
  | nan => nan

/-- Absolute value, `np.abs`; NaN propagates. -/
def abs : FL → FL
  | val a => val |a|
  | nan => nan

/-- Division; NaN propagates, and division by zero (which IEEE turns into
an infinity or NaN, neither of which is a finite value) is mapped to NaN. -/
def div : FL → FL → FL
  | val a, val b => if b = 0 then nan else val (a / b)
  | _, _ => nan

/-- Squaring, modelling the Python `** 2` / `** 2.0`. -/
def sq (x : FL) : FL := x.mul x

/-- The test `np.isnan`. -/
def isnan : FL → Bool
  | nan => true
  | val _ => false

/-- Comparison `<` with NumPy semantics: comparisons involving NaN are false. -/
def flt : FL → FL → Bool
  | val a, val b => decide (a < b)
  | _, _ => false

/-- Comparison `<=` / `>=` with NumPy semantics: comparisons involving NaN are false. -/
def fle : FL → FL → Bool
  | val a, val b => decide (a ≤ b)
  | _, _ => false

/-- Comparison `==` with NumPy semantics: NaN is equal to nothing, itself included. -/
def feq : FL → FL → Bool
  | val a, val b => decide (a = b)
  | _, _ => false

/-- Conversion `np.nan_to_num` on a scalar: NaN becomes 0, finite values are kept. -/
def nan_to_num : FL → FL
  | nan => val 0
  | val a => val a

end FL

/-- Model of `compute_flux_points_ul(quantity, quantity_errp)`:
`return 2 * quantity_errp + quantity`. -/
def compute_flux_points_ul (quantity quantity_errp : FL) : FL :=
  (FL.mul (FL.val 2) quantity_errp).add quantity

/-! ## Python string helpers

`str.strip()` and `str.split(",")` are re-implemented over `List Char`
with the semantics of Python: `strip` removes the six ASCII whitespace
characters from both ends, and `split` on a separator never drops empty
fields (so `"".split(",") == [""]`). -/

/-- The characters removed by Python `str.strip()` with no argument. -/
def isPySpace (c : Char) : Bool :=
  c = ' ' || c = '\t' || c = '\n' || c = '\r' || c = '\x0b' || c = '\x0c'

/-- Python `str.strip()` on the underlying character list. -/
def pyStripL (l : List Char) : List Char :=
  ((l.dropWhile isPySpace).reverse.dropWhile isPySpace).reverse

/-- Python `str.strip()`. -/
def pyStrip (s : String) : String :=
  String.mk (pyStripL s.data)

/-- Python `str.split(",")` on the underlying character list. -/
def pySplitCommaL : List Char → List (List Char)
  | [] => [[]]
  | c :: cs =>
    match pySplitCommaL cs with
    | [] => [[]]
    | w :: ws => if c = ',' then [] :: w :: ws else (c :: w) :: ws

/-- Python `str.split(",")`. -/
def pySplitComma (s : String) : List String :=
  (pySplitCommaL s.data).map String.mk

/-! ## Flux-point tables

The `flux_points_table` property of each catalog is modelled by a per-band row
function plus a `List.map` over the band records of the source.  The
`e_min`/`e_max`/`e_ref` columns come from fixed energy-edge arrays and are
independent of the flux logic, so they are not modelled.  Units attached
via `u.Quantity` are bookkeeping on the same numbers and are dropped. -/

/-- Per-band input read by the 4FGL, 3FGL and 3FHL builders: the flux
  column, the two components of the `Unc_...` column (lower, upper), the
  `nuFnu` column and the band significance. -/
structure BandFGL where
  flux : FL
  err_lo : FL
  err_hi : FL
  nuFnu : FL
  sqrt_ts : FL
deriving DecidableEq

/-- One row of the normalized flux-point table of the FGL/FHL builders. -/
structure FPRowFGL where
  flux : FL
  flux_errn : FL
  flux_errp : FL
  e2dnde : FL
  e2dnde_errn : FL
  e2dnde_errp : FL
  is_ul : Bool
  flux_ul : FL
  e2dnde_ul : FL
  sqrt_ts : FL
deriving DecidableEq

/-- One row of `SourceCatalogObject4FGL.flux_points_table`. -/
def fluxPointsRow4FGL (b : BandFGL) : FPRowFGL :=
  let flux_errn := b.err_lo.abs
  let e2dnde_errp := (b.nuFnu.mul b.err_hi).div b.flux
  let is_ul := flux_errn.isnan
  { flux := b.flux
    flux_errn := flux_errn
    flux_errp := b.err_hi
    e2dnde := b.nuFnu
    e2dnde_errn := ((b.nuFnu.mul b.err_lo).div b.flux).abs
    e2dnde_errp := e2dnde_errp
    is_ul := is_ul
    flux_ul := if is_ul then compute_flux_points_ul b.flux b.err_hi else FL.nan
    e2dnde_ul := if is_ul then compute_flux_points_ul b.nuFnu e2dnde_errp else FL.nan
    sqrt_ts := b.sqrt_ts }

/-- Model of `SourceCatalogObject4FGL.flux_points_table` over the band records
  (`Flux_Band`, `Unc_Flux_Band`, `nuFnu_Band`, `Sqrt_TS_Band`). -/
def fluxPointsTable4FGL (bands : List BandFGL) : List FPRowFGL :=
  bands.map fluxPointsRow4FGL

/-- One row of `SourceCatalogObject3FGL.flux_points_table`; same
  computation as 4FGL over the per-suffix `Flux...`/`Unc_Flux...`/`nuFnu...`
  columns. -/
def fluxPointsRow3FGL (b : BandFGL) : FPRowFGL :=
  let flux_errn := b.err_lo.abs
  let e2dnde_errp := (b.nuFnu.mul b.err_hi).div b.flux
  let is_ul := flux_errn.isnan
  { flux := b.flux
    flux_errn := flux_errn
    flux_errp := b.err_hi
    e2dnde := b.nuFnu
    e2dnde_errn := ((b.nuFnu.mul b.err_lo).div b.flux).abs
    e2dnde_errp := e2dnde_errp
    is_ul := is_ul
    flux_ul := if is_ul then compute_flux_points_ul b.flux b.err_hi else FL.nan
    e2dnde_ul := if is_ul then compute_flux_points_ul b.nuFnu e2dnde_errp else FL.nan
    sqrt_ts := b.sqrt_ts }

/-- Model of `SourceCatalogObject3FGL.flux_points_table`. -/
def fluxPointsTable3FGL (bands : List BandFGL) : List FPRowFGL :=
  bands.map fluxPointsRow3FGL

/-- One row of `SourceCatalogObject3FHL.flux_points_table`; same
  computation as 4FGL over `Flux_Band`, `Unc_Flux_Band`, `nuFnu`,
  `Sqrt_TS_Band`. -/
def fluxPointsRow3FHL (b : BandFGL) : FPRowFGL :=
  let flux_errn := b.err_lo.abs
  let e2dnde_errp := (b.nuFnu.mul b.err_hi).div b.flux
  let is_ul := flux_errn.isnan
  { flux := b.flux
    flux_errn := flux_errn
    flux_errp := b.err_hi
    e2dnde := b.nuFnu
    e2dnde_errn := ((b.nuFnu.mul b.err_lo).div b.flux).abs
    e2dnde_errp := e2dnde_errp
    is_ul := is_ul
    flux_ul := if is_ul then compute_flux_points_ul b.flux b.err_hi else FL.nan
    e2dnde_ul := if is_ul then compute_flux_points_ul b.nuFnu e2dnde_errp else FL.nan
    sqrt_ts := b.sqrt_ts }

/-- Model of `SourceCatalogObject3FHL.flux_points_table`. -/
def fluxPointsTable3FHL (bands : List BandFGL) : List FPRowFGL :=
  bands.map fluxPointsRow3FHL

/-- Per-band input of the 2FHL builder: `Flux...GeV` and the two
  components of `Unc_Flux...GeV`.  The 2FHL table has no `nuFnu` column. -/
structure Band2FHL where
  flux : FL
  err_lo : FL
  err_hi : FL
deriving DecidableEq

/-- One row of `SourceCatalogObject2FHL.flux_points_table`. -/
structure FPRow2FHL where
  flux : FL
  flux_errn : FL
  flux_errp : FL
  is_ul : Bool
  flux_ul : FL
deriving DecidableEq

/-- One row of `SourceCatalogObject2FHL.flux_points_table`. -/
def fluxPointsRow2FHL (b : Band2FHL) : FPRow2FHL :=
  let flux_errn := b.err_lo.abs
  let is_ul := flux_errn.isnan
  { flux := b.flux
    flux_errn := flux_errn
    flux_errp := b.err_hi
    is_ul := is_ul
    flux_ul := if is_ul then compute_flux_points_ul b.flux b.err_hi else FL.nan }

/-- Model of `SourceCatalogObject2FHL.flux_points_table`. -/
def fluxPointsTable2FHL (bands : List Band2FHL) : List FPRow2FHL :=
  bands.map fluxPointsRow2FHL

/-- Per-band input of the 2PC builder, read from the auxiliary
  `PULSAR_SED` extension: `PhotonFlux`, `Unc_PhotonFlux` (a single
  symmetric error), `EnergyFlux`, `Unc_EnergyFlux`. -/
structure Band2PC where
  flux : FL
  flux_err : FL
  e2dnde : FL
  e2dnde_err : FL
deriving DecidableEq

/-- One row of `SourceCatalogObject2PC.flux_points_table`.  The error
  columns are the symmetric `flux_err` / `e2dnde_err`; there is no
  `flux_errp` column in this table. -/
structure FPRow2PC where
  flux : FL
  flux_err : FL
  e2dnde : FL
  e2dnde_err : FL
  is_ul : Bool
  flux_ul : FL
  e2dnde_ul : FL
deriving DecidableEq

/-- One row of `SourceCatalogObject2PC.flux_points_table`.  The flag is
  `np.where(table["e2dnde_err"] == 0, True, False)`. -/
def fluxPointsRow2PC (b : Band2PC) : FPRow2PC :=
  let is_ul := FL.feq b.e2dnde_err (FL.val 0)
  { flux := b.flux
    flux_err := b.flux_err
    e2dnde := b.e2dnde
    e2dnde_err := b.e2dnde_err
    is_ul := is_ul
    flux_ul := if is_ul then compute_flux_points_ul b.flux b.flux_err else FL.nan
    e2dnde_ul := if is_ul then compute_flux_points_ul b.e2dnde b.e2dnde_err else FL.nan }

/-- Model of `SourceCatalogObject2PC.flux_points_table`. -/
def fluxPointsTable2PC (bands : List Band2PC) : List FPRow2PC :=
  bands.map fluxPointsRow2PC

/-- Per-band input of the 3PC builder, from the spectral row:
  `Flux_Band`, `Unc_Flux_Band` (lower, upper), `Sqrt_TS_Band`,
  `nuFnu_Band`. -/
structure Band3PC where
  flux : FL
  err_lo : FL
  err_hi : FL
  sqrt_ts : FL
  nuFnu : FL
deriving DecidableEq

/-- One row of `SourceCatalogObject3PC.flux_points_table`.  The flag is
  `np.isnan(flux_err[:, 0]) | (sig < 2)`. -/
def fluxPointsRow3PC (b : Band3PC) : FPRowFGL :=
  let e2dnde_errp := (b.nuFnu.mul b.err_hi).div b.flux
  let is_ul := b.err_lo.isnan || FL.flt b.sqrt_ts (FL.val 2)
  { flux := b.flux
    flux_errn := b.err_lo.abs
    flux_errp := b.err_hi
    e2dnde := b.nuFnu
    e2dnde_errn := ((b.nuFnu.mul b.err_lo).div b.flux).abs
    e2dnde_errp := e2dnde_errp
    is_ul := is_ul
    flux_ul := if is_ul then compute_flux_points_ul b.flux b.err_hi else FL.nan
    e2dnde_ul := if is_ul then compute_flux_points_ul b.nuFnu e2dnde_errp else FL.nan
    sqrt_ts := b.sqrt_ts }

/-- Model of `SourceCatalogObject3PC.flux_points_table`. -/
def fluxPointsTable3PC (bands : List Band3PC) : List FPRowFGL :=
  bands.map fluxPointsRow3PC

/-! ## `is_pointlike` -/

/-- Model of `SourceCatalogObjectFermiBase.is_pointlike`:
`name = self.data["Extended_Source_Name"].strip()`;
`return name == "" or name.strip() == "--"`. -/
def is_pointlike_fermiBase (extended_source_name : String) : Bool :=
  let name := pyStrip extended_source_name
  name == "" || pyStrip name == "--"

/-- Model of `SourceCatalogObject2FHL.is_pointlike`:
`return self.data["Source_Name"].strip()[-1] != "e"`.
Indexing `[-1]` on an empty string raises `IndexError` in Python,
modelled here with `none`. -/
def is_pointlike_2FHL (source_name : String) : Option Bool :=
  match (pyStrip source_name).data.getLast? with
  | none => none
  | some c => some (c != 'e')

/-! ## 4FGL spectral model (`SourceCatalogObject4FGL.spectral_model`) -/

/-- The 4FGL catalog-row fields read by `spectral_model`.
`has_plec_expfactorS` models the column-presence test
`"PLEC_ExpfactorS" in self.data` (DR3 and later data releases). -/
structure SpecRow4FGL where
  spectrumType : String
  pivot_energy : FL
  pl_flux_density : FL
  pl_index : FL
  unc_pl_flux_density : FL
  unc_pl_index : FL
  lp_flux_density : FL
  lp_index : FL
  lp_beta : FL
  unc_lp_flux_density : FL
  unc_lp_index : FL
  unc_lp_beta : FL
  has_plec_expfactorS : Bool
  plec_expfactorS : FL
  unc_plec_expfactorS : FL
  plec_indexS : FL
  unc_plec_indexS : FL
  plec_expfactor : FL
  unc_plec_expfactor : FL
  plec_index : FL
  unc_plec_index : FL
  plec_flux_density : FL
  unc_plec_flux_density : FL
  plec_exp_index : FL
  unc_plec_exp_index : FL
deriving DecidableEq

/-- The data handed to `Model.create(tag, "spectral", **pars)` followed by
the per-parameter error assignments: the model tag, the `pars` dict and
the `errs` dict, as association lists in insertion order. -/
structure SpectralModelData where
  tag : String
  pars : List (String × FL)
  errs : List (String × FL)
deriving DecidableEq

/-- Model of `SourceCatalogObject4FGL.spectral_model`. -/
def spectral_model_4FGL (d : SpecRow4FGL) : Except String SpectralModelData :=
  let spec_type := pyStrip d.spectrumType
  if spec_type = "PowerLaw" then
    .ok { tag := "PowerLawSpectralModel"
          pars := [("reference", d.pivot_energy),
                   ("amplitude", d.pl_flux_density),
                   ("index", d.pl_index)]
          errs := [("amplitude", d.unc_pl_flux_density),
                   ("index", d.unc_pl_index)] }
  else if spec_type = "LogParabola" then
    .ok { tag := "LogParabolaSpectralModel"
          pars := [("reference", d.pivot_energy),
                   ("amplitude", d.lp_flux_density),
                   ("alpha", d.lp_index),
                   ("beta", d.lp_beta)]
          errs := [("amplitude", d.unc_lp_flux_density),
                   ("alpha", d.unc_lp_index),
                   ("beta", d.unc_lp_beta)] }
  else if spec_type = "PLSuperExpCutoff" then
    let tag := if d.has_plec_expfactorS
      then "SuperExpCutoffPowerLaw4FGLDR3SpectralModel"
      else "SuperExpCutoffPowerLaw4FGLSpectralModel"
    let expfactor := if d.has_plec_expfactorS then d.plec_expfactorS else d.plec_expfactor
    let expfactor_err :=
      if d.has_plec_expfactorS then d.unc_plec_expfactorS else d.unc_plec_expfactor
    let index_1 := if d.has_plec_expfactorS then d.plec_indexS else d.plec_index
    let index_1_err := if d.has_plec_expfactorS then d.unc_plec_indexS else d.unc_plec_index
    .ok { tag := tag
          pars := [("reference", d.pivot_energy),
                   ("amplitude", d.plec_flux_density),
                   ("index_1", index_1),
                   ("index_2", d.plec_exp_index),
                   ("expfactor", expfactor)]
          errs := [("amplitude", d.unc_plec_flux_density),
                   ("index_1", index_1_err),
                   ("index_2", FL.nan_to_num d.unc_plec_exp_index),
                   ("expfactor", expfactor_err)] }
  else
    .error ("Invalid spec_type: " ++ spec_type)

/-! ## 4FGL spatial model (`SourceCatalogObject4FGL.spatial_model`) -/

/-- A value of the form `radicand ** 0.5`, kept symbolic because the
square root of a rational is generally irrational; the 4FGL eccentricity
`e = (1 - (Model_SemiMinor / Model_SemiMajor) ** 2.0) ** 0.5` is stored
this way. -/
structure SqrtVal where
  radicand : FL
deriving DecidableEq

/-- The extended-source row fields read by `spatial_model`; `version` is
the integer attached to the extended-sources table by the catalog
loader. -/
structure ExtRow4FGL where
  model_form : String
  model_semiMajor : FL
  model_semiMinor : FL
  model_posAng : FL
  spatial_filename : String
  version : Int
deriving DecidableEq

/-- The catalog-row fields read by `spatial_model`. -/
structure SpatialRow4FGL where
  raj2000 : FL
  dej2000 : FL
  extended_source_name : String
  ext : ExtRow4FGL
deriving DecidableEq

/-- The spatial model constructed by `spatial_model`, by constructor
family and constructor arguments.  The subsequent `_set_spatial_errors`
call only fills in positional error attributes of the returned model and
is not modelled. -/
inductive SpatialModelData where
  | point (lon_0 lat_0 : FL)
  | disk (lon_0 lat_0 r_0 : FL) (e : SqrtVal) (phi : FL)
  | gaussian (lon_0 lat_0 sigma : FL) (e : SqrtVal) (phi : FL)
  | template (path : String) (filename : String)
deriving DecidableEq

/-- Model of `SourceCatalogObject4FGL.spatial_model`. -/
def spatial_model_4FGL (d : SpatialRow4FGL) : Except String SpatialModelData :=
  if is_pointlike_fermiBase d.extended_source_name then
    .ok (.point d.raj2000 d.dej2000)
  else
    let de := d.ext
    let morph_type := pyStrip de.model_form
    let e : SqrtVal := ⟨(FL.val 1).sub ((de.model_semiMinor.div de.model_semiMajor).sq)⟩
    if morph_type = "Disk" then
      .ok (.disk d.raj2000 d.dej2000 de.model_semiMajor e de.model_posAng)
    else if ["Map", "Ring", "2D Gaussian x2"].contains morph_type then
      let filename := pyStrip de.spatial_filename ++ ".gz"
      let path :=
        if de.version < 28 then
          "$GAMMAPY_DATA/catalogs/fermi/LAT_extended_sources_8years/Templates/"
        else if de.version < 32 then
          "$GAMMAPY_DATA/catalogs/fermi/Extended_12years/Templates/"
        else
          "$GAMMAPY_DATA/catalogs/fermi/Extended_14years/Templates/"
      .ok (.template path filename)
    else if morph_type = "2D Gaussian" then
      .ok (.gaussian d.raj2000 d.dej2000 de.model_semiMajor e de.model_posAng)
    else
      .error ("Invalid spatial model: " ++ morph_type)

/-! ## Info formatter -/

/-- The section strings a `SourceCatalogObjectFermiBase` source can emit;
each `_info_*` method only formats row fields, so its output is taken as
an opaque string, with `morphology` standing for `_info_morphology`,
`spectral_fit` for `_info_spectral_fit` and `spectral_points` for
`_info_spectral_points`. -/
structure InfoSections where
  basic : String
  more : String
  position : String
  morphology : String
  spectral_fit : String
  spectral_points : String
  lightcurve : String
deriving DecidableEq

/-- The option list of `info`: the string `"all"` is first replaced by the
full comma-separated option list, then split on commas. -/
def infoOps (all : String) (info : String) : List String :=
  pySplitComma (if info = "all" then all else info)

/-- Model of `SourceCatalogObjectFermiBase.info(info)`: each section is appended
when its name occurs in the comma-separated option list, in the fixed
textual order of the method body; the morphology block follows the
position block only for extended sources. -/
def info_fermiBase (sec : InfoSections) (pointlike : Bool) (info : String) : String :=
  let ops := infoOps "basic,more,position,spectral,lightcurve" info
  (if ops.contains "basic" then sec.basic else "")
    ++ (if ops.contains "more" then sec.more else "")
    ++ (if ops.contains "position" then
          sec.position ++ (if !pointlike then sec.morphology else "")
        else "")
    ++ (if ops.contains "spectral" then sec.spectral_fit ++ sec.spectral_points else "")
    ++ (if ops.contains "lightcurve" then sec.lightcurve else "")

/-- The section strings of a `SourceCatalogObjectFermiPCBase` source;
`phasogram` stands for `_info_phasogram`, emitted for the `lightcurve`
option. -/
structure InfoSectionsPC where
  basic : String
  more : String
  pulsar : String
  position : String
  spectral_fit : String
  spectral_points : String
  phasogram : String
deriving DecidableEq

/-- Model of `SourceCatalogObjectFermiPCBase.info(info)`. -/
def info_fermiPCBase (sec : InfoSectionsPC) (info : String) : String :=
  let ops := infoOps "basic,more,position,pulsar,spectral,lightcurve" info
  (if ops.contains "basic" then sec.basic else "")
    ++ (if ops.contains "more" then sec.more else "")
    ++ (if ops.contains "pulsar" then sec.pulsar else "")
    ++ (if ops.contains "position" then sec.position else "")
    ++ (if ops.contains "spectral" then sec.spectral_fit ++ sec.spectral_points else "")
    ++ (if ops.contains "lightcurve" then sec.phasogram else "")

/-! ## 2PC spectral model (`SourceCatalogObject2PC.spectral_model`) -/

/-- The fields of a 2PC spectral row read by `spectral_model`.  Catalog
scalars may be NaN or `numpy.ma` masked constants; a masked constant
compares false against any number exactly as NaN does, so both are
`FL.nan` here. -/
structure SpecRow2PC where
  ts_cutoff : FL
  ts_bfree : FL
  pl_scale : FL
  pl_prefactor : FL
  pl_photon_index : FL
  unc_pl_prefactor : FL
  unc_pl_photon_index : FL
  plec_photon_index : FL
  plec_exponential_index : FL
  plec_prefactor : FL
  plec_scale : FL
  plec_cutoff : FL
  unc_plec_photon_index : FL
  unc_plec_exponential_index : FL
  unc_plec_prefactor : FL
  unc_plec_cutoff : FL
  plec1_photon_index : FL
  plec1_prefactor : FL
  plec1_scale : FL
  plec1_cutoff : FL
  unc_plec1_photon_index : FL
  unc_plec1_prefactor : FL
  unc_plec1_cutoff : FL
deriving DecidableEq

/-- Model of `SourceCatalogObject2PC.spectral_model` given a present spectral row
(the enclosing `d is None` early return is outside this function); the
trailing branch logs a warning and returns `None`, modelled as `none`. -/
def spectral_model_2PC (d : SpecRow2PC) : Option SpectralModelData :=
  if FL.flt d.ts_cutoff (FL.val 9) then
    some { tag := "PowerLawSpectralModel"
           pars := [("reference", d.pl_scale),
                    ("amplitude", d.pl_prefactor),
                    ("index", d.pl_photon_index)]
           errs := [("amplitude", d.unc_pl_prefactor),
                    ("index", d.unc_pl_photon_index)] }
  else if FL.fle (FL.val 9) d.ts_bfree then
    some { tag := "SuperExpCutoffPowerLaw3FGLSpectralModel"
           pars := [("index_1", d.plec_photon_index),
                    ("index_2", d.plec_exponential_index),
                    ("amplitude", d.plec_prefactor),
                    ("reference", d.plec_scale),
                    ("ecut", d.plec_cutoff)]
           errs := [("index_1", d.unc_plec_photon_index),
                    ("index_2", d.unc_plec_exponential_index),
                    ("amplitude", d.unc_plec_prefactor),
                    ("ecut", d.unc_plec_cutoff)] }
  else if FL.flt d.ts_bfree (FL.val 9) then
    some { tag := "SuperExpCutoffPowerLaw3FGLSpectralModel"
           pars := [("index_1", d.plec1_photon_index),
                    ("index_2", FL.val 1),
                    ("amplitude", d.plec1_prefactor),
                    ("reference", d.plec1_scale),
                    ("ecut", d.plec1_cutoff)]
           errs := [("index_1", d.unc_plec1_photon_index),
                    ("amplitude", d.unc_plec1_prefactor),
                    ("ecut", d.unc_plec1_cutoff)] }
  else
    none

/-! ## 4FGL lightcurve (`SourceCatalogObject4FGL.lightcurve`) -/

/-- The source-data fields read by `lightcurve`: presence of the flux
history columns and time axes, and the history arrays themselves
(per time bin: flux, the two `Unc_` components, and the significance). -/
structure LightcurveRow4FGL where
  has_flux_history : Bool
  has_time_axis : Bool
  flux_history : List FL
  unc_flux_history_lo : List FL
  unc_flux_history_hi : List FL
  sqrt_ts_history : List FL
  has_flux2_history : Bool
  has_time_axis_2 : Bool
  flux2_history : List FL
  unc_flux2_history_lo : List FL
  unc_flux2_history_hi : List FL
  sqrt_ts2_history : List FL
deriving DecidableEq

/-- The maps handed to `FluxPoints.from_maps`, tagged with the history
column the data came from. -/
structure LightcurveData where
  tag : String
  flux : List FL
  flux_errp : List FL
  flux_errn : List FL
  flux_ul : List FL
  ts : List FL
deriving DecidableEq

/-- The map contents built by `lightcurve` from a history column: flux
from `data[tag]`, `flux_errp = Unc[:, 1]`, `flux_errn = -Unc[:, 0]`,
`flux_ul = compute_flux_points_ul(flux, flux_errp)` (no upper-limit
masking here), `ts = sqrt_ts ** 2`. -/
def lightcurveMaps (tag : String) (flux lo hi sqrt_ts : List FL) : LightcurveData :=
  { tag := tag
    flux := flux
    flux_errp := hi
    flux_errn := lo.map FL.neg
    flux_ul := List.zipWith compute_flux_points_ul flux hi
    ts := sqrt_ts.map FL.sq }

/-- Model of `SourceCatalogObject4FGL.lightcurve(interval)`; `ValueError` is
modelled by `.error` with the message raised. -/
def lightcurve_4FGL (d : LightcurveRow4FGL) (interval : String) :
    Except String LightcurveData :=
  if interval = "1-year" then
    if ¬ (d.has_flux_history ∧ d.has_time_axis) then
      .error "1-year interval is not available for this catalogue version"
    else
      .ok (lightcurveMaps "Flux_History" d.flux_history d.unc_flux_history_lo
        d.unc_flux_history_hi d.sqrt_ts_history)
  else if interval = "2-month" then
    if ¬ (d.has_flux2_history ∧ d.has_time_axis_2) then
      .error "2-month interval is not available for this catalog version"
    else
      .ok (lightcurveMaps "Flux2_History" d.flux2_history d.unc_flux2_history_lo
        d.unc_flux2_history_hi d.sqrt_ts2_history)
  else
    .error "Time intervals available are 1-year or 2-month"

/-- Whether an `Except` result is an error, i.e. the Python call raised. -/
def isErr {ε α : Type} : Except ε α → Bool
  | .error _ => true
  | .ok _ => false

/-! ## Helper lemmas -/

/-- The map `FL.abs` preserves NaN-ness. -/
theorem FL.isnan_abs (x : FL) : (FL.abs x).isnan = x.isnan := by
  cases x <;> rfl

/-- Unfolding: `pyStripL` drops from the front and then from the back. -/
theorem pyStripL_eq (m : List Char) :
    pyStripL m = List.rdropWhile isPySpace (List.dropWhile isPySpace m) := rfl

/-- Dropping leading whitespace again after a strip changes nothing. -/
theorem dropWhile_pyStripL (l : List Char) :
    List.dropWhile isPySpace (pyStripL l) = pyStripL l := by
  rw [pyStripL_eq, List.dropWhile_eq_self_iff]
  intro hl
  have hpre := List.rdropWhile_prefix isPySpace (List.dropWhile isPySpace l)
  have hlen : 0 < (List.dropWhile isPySpace l).length := lt_of_lt_of_le hl hpre.length_le
  have hget := hpre.getElem (n := 0) hl
  rw [List.get_eq_getElem, hget]
  have := List.dropWhile_get_zero_not isPySpace l hlen
  rwa [List.get_eq_getElem] at this

/-- Python `strip` is idempotent on character lists. -/
theorem pyStripL_idem (l : List Char) : pyStripL (pyStripL l) = pyStripL l := by
  rw [pyStripL_eq (pyStripL l), dropWhile_pyStripL, pyStripL_eq l,
    List.rdropWhile_idempotent]

/-- Python `strip` is idempotent. -/
theorem pyStrip_idem (s : String) : pyStrip (pyStrip s) = pyStrip s := by
  show String.mk (pyStripL (pyStripL s.data)) = String.mk (pyStripL s.data)
  rw [pyStripL_idem]

/-! ## Claims -/

/-- C1: `compute_flux_points_ul(q, e)` returns exactly `2 * e + q`, and in
every flux-point table built by a Fermi catalog source object (4FGL, 3FGL,
3FHL, 2FHL, 2PC, 3PC) every `flux_ul` and `e2dnde_ul` entry that is
written (the rows flagged `is_ul`) is computed with this formula applied
to the value and positive-error columns of the row (the symmetric `flux_err` /
`e2dnde_err` in the 2PC table). -/
theorem c1_compute_ul_formula :
    (∀ q e : ℚ, compute_flux_points_ul (FL.val q) (FL.val e) = FL.val (2 * e + q))
    ∧ (∀ bands, ∀ r ∈ fluxPointsTable4FGL bands, r.is_ul = true →
        r.flux_ul = compute_flux_points_ul r.flux r.flux_errp
        ∧ r.e2dnde_ul = compute_flux_points_ul r.e2dnde r.e2dnde_errp)
    ∧ (∀ bands, ∀ r ∈ fluxPointsTable3FGL bands, r.is_ul = true →
        r.flux_ul = compute_flux_points_ul r.flux r.flux_errp
        ∧ r.e2dnde_ul = compute_flux_points_ul r.e2dnde r.e2dnde_errp)
    ∧ (∀ bands, ∀ r ∈ fluxPointsTable3FHL bands, r.is_ul = true →
        r.flux_ul = compute_flux_points_ul r.flux r.flux_errp
        ∧ r.e2dnde_ul = compute_flux_points_ul r.e2dnde r.e2dnde_errp)
    ∧ (∀ bands, ∀ r ∈ fluxPointsTable2FHL bands, r.is_ul = true →
        r.flux_ul = compute_flux_points_ul r.flux r.flux_errp)
    ∧ (∀ bands, ∀ r ∈ fluxPointsTable2PC bands, r.is_ul = true →
        r.flux_ul = compute_flux_points_ul r.flux r.flux_err
        ∧ r.e2dnde_ul = compute_flux_points_ul r.e2dnde r.e2dnde_err)
    ∧ (∀ bands, ∀ r ∈ fluxPointsTable3PC bands, r.is_ul = true →
        r.flux_ul = compute_flux_points_ul r.flux r.flux_errp
        ∧ r.e2dnde_ul = compute_flux_points_ul r.e2dnde r.e2dnde_errp) := by
  refine ⟨fun q e => rfl, ?_, ?_, ?_, ?_, ?_, ?_⟩ <;>
    · intro bands r hr hul
      obtain ⟨b, -, rfl⟩ := List.mem_map.1 hr
      first
        | (simp only [fluxPointsRow4FGL] at hul ⊢; simp [hul])
        | (simp only [fluxPointsRow3FGL] at hul ⊢; simp [hul])
        | (simp only [fluxPointsRow3FHL] at hul ⊢; simp [hul])
        | (simp only [fluxPointsRow2FHL] at hul ⊢; simp [hul])
        | (simp only [fluxPointsRow2PC] at hul ⊢; simp [hul])
        | (simp only [fluxPointsRow3PC] at hul ⊢; simp [hul])

/-- C1 witness: a concrete 4FGL band with NaN lower error is flagged and
its upper limits follow the `2 * errp + value` formula. -/
theorem c1_witness :
    (fluxPointsRow4FGL ⟨FL.val 5, FL.nan, FL.val 3, FL.val 7, FL.val 1⟩).is_ul = true
    ∧ (fluxPointsRow4FGL ⟨FL.val 5, FL.nan, FL.val 3, FL.val 7, FL.val 1⟩).flux_ul
        = compute_flux_points_ul
            (fluxPointsRow4FGL ⟨FL.val 5, FL.nan, FL.val 3, FL.val 7, FL.val 1⟩).flux
            (fluxPointsRow4FGL ⟨FL.val 5, FL.nan, FL.val 3, FL.val 7, FL.val 1⟩).flux_errp :=
  ⟨by decide,
    (c1_compute_ul_formula.2.1 [⟨FL.val 5, FL.nan, FL.val 3, FL.val 7, FL.val 1⟩]
      _ (List.mem_map_of_mem _ (List.mem_singleton.2 rfl)) (by decide)).1⟩

/-- C2 counterexample: in the 2PC builder a band whose flux error is
absent (NaN) but whose energy-flux error is nonzero is not flagged as an
upper limit, so `is_ul` is not determined by the flux error being NaN;
the 2PC flag tests `e2dnde_err == 0` instead. -/
theorem c2_counterexample :
    fluxPointsRow2PC ⟨FL.val 5, FL.nan, FL.val 3, FL.val 1⟩
        ∈ fluxPointsTable2PC [⟨FL.val 5, FL.nan, FL.val 3, FL.val 1⟩]
    ∧ (fluxPointsRow2PC ⟨FL.val 5, FL.nan, FL.val 3, FL.val 1⟩).flux_err = FL.nan
    ∧ (fluxPointsRow2PC ⟨FL.val 5, FL.nan, FL.val 3, FL.val 1⟩).is_ul = false :=
  ⟨List.mem_map_of_mem _ (List.mem_singleton.2 rfl), by decide, by decide⟩

/-- C2 amended: a row of `flux_points_table` has `is_ul` true exactly
when the lower flux error of the row is NaN for 4FGL, when the lower flux
error is NaN or the band significance `Sqrt_TS_Band` is below 2 for 3PC,
and — differently from 4FGL and 3PC — exactly when the energy-flux
error `e2dnde_err` of the row equals 0 for 2PC. -/
theorem c2_amended :
    (∀ bands, ∀ r ∈ fluxPointsTable4FGL bands, r.is_ul = r.flux_errn.isnan)
    ∧ (∀ bands, ∀ r ∈ fluxPointsTable3PC bands,
        r.is_ul = (r.flux_errn.isnan || FL.flt r.sqrt_ts (FL.val 2)))
    ∧ (∀ bands, ∀ r ∈ fluxPointsTable2PC bands,
        r.is_ul = FL.feq r.e2dnde_err (FL.val 0)) := by
  refine ⟨?_, ?_, ?_⟩ <;>
    · intro bands r hr
      obtain ⟨b, -, rfl⟩ := List.mem_map.1 hr
      first
        | simp [fluxPointsRow4FGL]
        | simp [fluxPointsRow3PC, FL.isnan_abs]
        | simp [fluxPointsRow2PC]

/-- C2 amended witness: the amended characterization evaluated on a
concrete one-band 2PC table with a zero energy-flux error. -/
theorem c2_amended_witness :
    (fluxPointsRow2PC ⟨FL.val 5, FL.val 2, FL.val 3, FL.val 0⟩).is_ul
      = FL.feq (fluxPointsRow2PC ⟨FL.val 5, FL.val 2, FL.val 3, FL.val 0⟩).e2dnde_err
          (FL.val 0) :=
  c2_amended.2.2 [⟨FL.val 5, FL.val 2, FL.val 3, FL.val 0⟩] _
    (List.mem_map_of_mem _ (List.mem_singleton.2 rfl))

/-- C3: in every flux-point table of a Fermi catalog source object, the
`flux_ul` entry equals `2 * flux_errp + flux` in every row flagged
`is_ul` and is NaN in every row not flagged, and likewise `e2dnde_ul`
with respect to `e2dnde_errp` and `e2dnde` where those columns exist
(2FHL has no `e2dnde` columns; the 2PC table carries the symmetric
`flux_err` / `e2dnde_err` in place of `flux_errp` / `e2dnde_errp`). -/
theorem c3_ul_invariant :
    (∀ bands, ∀ r ∈ fluxPointsTable4FGL bands,
        (r.is_ul = true →
          r.flux_ul = (FL.mul (FL.val 2) r.flux_errp).add r.flux
          ∧ r.e2dnde_ul = (FL.mul (FL.val 2) r.e2dnde_errp).add r.e2dnde)
        ∧ (r.is_ul = false → r.flux_ul = FL.nan ∧ r.e2dnde_ul = FL.nan))
    ∧ (∀ bands, ∀ r ∈ fluxPointsTable3FGL bands,
        (r.is_ul = true →
          r.flux_ul = (FL.mul (FL.val 2) r.flux_errp).add r.flux
          ∧ r.e2dnde_ul = (FL.mul (FL.val 2) r.e2dnde_errp).add r.e2dnde)
        ∧ (r.is_ul = false → r.flux_ul = FL.nan ∧ r.e2dnde_ul = FL.nan))
    ∧ (∀ bands, ∀ r ∈ fluxPointsTable3FHL bands,
        (r.is_ul = true →
          r.flux_ul = (FL.mul (FL.val 2) r.flux_errp).add r.flux
          ∧ r.e2dnde_ul = (FL.mul (FL.val 2) r.e2dnde_errp).add r.e2dnde)
        ∧ (r.is_ul = false → r.flux_ul = FL.nan ∧ r.e2dnde_ul = FL.nan))
    ∧ (∀ bands, ∀ r ∈ fluxPointsTable2FHL bands,
        (r.is_ul = true → r.flux_ul = (FL.mul (FL.val 2) r.flux_errp).add r.flux)
        ∧ (r.is_ul = false → r.flux_ul = FL.nan))
    ∧ (∀ bands, ∀ r ∈ fluxPointsTable2PC bands,
        (r.is_ul = true →
          r.flux_ul = (FL.mul (FL.val 2) r.flux_err).add r.flux
          ∧ r.e2dnde_ul = (FL.mul (FL.val 2) r.e2dnde_err).add r.e2dnde)
        ∧ (r.is_ul = false → r.flux_ul = FL.nan ∧ r.e2dnde_ul = FL.nan))
    ∧ (∀ bands, ∀ r ∈ fluxPointsTable3PC bands,
        (r.is_ul = true →
          r.flux_ul = (FL.mul (FL.val 2) r.flux_errp).add r.flux
          ∧ r.e2dnde_ul = (FL.mul (FL.val 2) r.e2dnde_errp).add r.e2dnde)
        ∧ (r.is_ul = false → r.flux_ul = FL.nan ∧ r.e2dnde_ul = FL.nan)) := by
  refine ⟨?_, ?_, ?_, ?_, ?_, ?_⟩ <;>
    · intro bands r hr
      obtain ⟨b, -, rfl⟩ := List.mem_map.1 hr
      constructor <;> intro hul <;>
        first
          | (simp only [fluxPointsRow4FGL] at hul ⊢; simp [hul, compute_flux_points_ul])
          | (simp only [fluxPointsRow3FGL] at hul ⊢; simp [hul, compute_flux_points_ul])
          | (simp only [fluxPointsRow3FHL] at hul ⊢; simp [hul, compute_flux_points_ul])
          | (simp only [fluxPointsRow2FHL] at hul ⊢; simp [hul, compute_flux_points_ul])
          | (simp only [fluxPointsRow2PC] at hul ⊢; simp [hul, compute_flux_points_ul])
          | (simp only [fluxPointsRow3PC] at hul ⊢; simp [hul, compute_flux_points_ul])

/-- C3 witness: a concrete one-band 4FGL table with a present lower error
is not flagged and carries NaN upper limits. -/
theorem c3_witness :
    (fluxPointsRow4FGL ⟨FL.val 5, FL.val 2, FL.val 3, FL.val 7, FL.val 1⟩).is_ul = false
    ∧ (fluxPointsRow4FGL ⟨FL.val 5, FL.val 2, FL.val 3, FL.val 7, FL.val 1⟩).flux_ul = FL.nan
    ∧ (fluxPointsRow4FGL ⟨FL.val 5, FL.val 2, FL.val 3, FL.val 7, FL.val 1⟩).e2dnde_ul
        = FL.nan :=
  ⟨by decide,
    (c3_ul_invariant.1 [⟨FL.val 5, FL.val 2, FL.val 3, FL.val 7, FL.val 1⟩] _
      (List.mem_map_of_mem _ (List.mem_singleton.2 rfl))).2 (by decide)⟩

/-- C4: `SourceCatalogObject4FGL.spectral_model` selects the model family
solely from the stripped `SpectrumType`: `PowerLaw`, `LogParabola` and
`PLSuperExpCutoff` give the corresponding model tags, the latter split on
the presence of the `PLEC_ExpfactorS` column, and any other value raises
`ValueError`. -/
theorem c4_spectral_dispatch (d : SpecRow4FGL) :
    (pyStrip d.spectrumType = "PowerLaw" →
      ∃ m, spectral_model_4FGL d = .ok m ∧ m.tag = "PowerLawSpectralModel")
    ∧ (pyStrip d.spectrumType = "LogParabola" →
      ∃ m, spectral_model_4FGL d = .ok m ∧ m.tag = "LogParabolaSpectralModel")
    ∧ (pyStrip d.spectrumType = "PLSuperExpCutoff" →
      ∃ m, spectral_model_4FGL d = .ok m
        ∧ m.tag = (if d.has_plec_expfactorS
            then "SuperExpCutoffPowerLaw4FGLDR3SpectralModel"
            else "SuperExpCutoffPowerLaw4FGLSpectralModel"))
    ∧ (pyStrip d.spectrumType ∉
        (["PowerLaw", "LogParabola", "PLSuperExpCutoff"] : List String) →
      ∃ msg, spectral_model_4FGL d = .error msg) := by
  refine ⟨fun h => ?_, fun h => ?_, fun h => ?_, fun h => ?_⟩
  · simp [spectral_model_4FGL, h]
  · simp [spectral_model_4FGL, h]
  · cases hE : d.has_plec_expfactorS <;> simp [spectral_model_4FGL, h, hE]
  · simp only [List.mem_cons, List.not_mem_nil, or_false, not_or] at h
    obtain ⟨h1, h2, h3⟩ := h
    simp [spectral_model_4FGL, h1, h2, h3]

/-- A concrete 4FGL catalog row with `SpectrumType == "PowerLaw "`
(trailing blank as in the FITS columns), used to evaluate the spectral
accessors. -/
def specRow4FGLExample : SpecRow4FGL :=
  { spectrumType := "PowerLaw "
    pivot_energy := FL.val 1000
    pl_flux_density := FL.val 3
    pl_index := FL.val 2
    unc_pl_flux_density := FL.val 1
    unc_pl_index := FL.val 1
    lp_flux_density := FL.val 0
    lp_index := FL.val 0
    lp_beta := FL.val 0
    unc_lp_flux_density := FL.val 0
    unc_lp_index := FL.val 0
    unc_lp_beta := FL.val 0
    has_plec_expfactorS := false
    plec_expfactorS := FL.val 0
    unc_plec_expfactorS := FL.val 0
    plec_indexS := FL.val 0
    unc_plec_indexS := FL.val 0
    plec_expfactor := FL.val 0
    unc_plec_expfactor := FL.val 0
    plec_index := FL.val 0
    unc_plec_index := FL.val 0
    plec_flux_density := FL.val 0
    unc_plec_flux_density := FL.val 0
    plec_exp_index := FL.nan
    unc_plec_exp_index := FL.nan }

/-- C4 witness: the dispatch evaluated on the concrete power-law row. -/
theorem c4_witness :
    pyStrip specRow4FGLExample.spectrumType = "PowerLaw"
    ∧ ∃ m, spectral_model_4FGL specRow4FGLExample = .ok m
        ∧ m.tag = "PowerLawSpectralModel" :=
  ⟨by decide, (c4_spectral_dispatch specRow4FGLExample).1 (by decide)⟩

/-- C5: for a 4FGL row whose stripped `SpectrumType` is `PowerLaw`, the
spectral model parameters are the columns of the row copied unchanged —
`reference = Pivot_Energy`, `amplitude = PL_Flux_Density`,
`index = PL_Index` — and the errors are `Unc_PL_Flux_Density` and
`Unc_PL_Index`; no transformation is applied to any of the values. -/
theorem c5_powerlaw_params (d : SpecRow4FGL)
    (h : pyStrip d.spectrumType = "PowerLaw") :
    spectral_model_4FGL d = .ok
      { tag := "PowerLawSpectralModel"
        pars := [("reference", d.pivot_energy),
                 ("amplitude", d.pl_flux_density),
                 ("index", d.pl_index)]
        errs := [("amplitude", d.unc_pl_flux_density),
                 ("index", d.unc_pl_index)] } := by
  simp [spectral_model_4FGL, h]

/-- C5 witness: the power-law model built from the concrete row carries
the `Pivot_Energy`, `PL_Flux_Density` and `PL_Index` of the row unchanged. -/
theorem c5_witness :
    pyStrip specRow4FGLExample.spectrumType = "PowerLaw"
    ∧ spectral_model_4FGL specRow4FGLExample = .ok
      { tag := "PowerLawSpectralModel"
        pars := [("reference", FL.val 1000),
                 ("amplitude", FL.val 3),
                 ("index", FL.val 2)]
        errs := [("amplitude", FL.val 1),
                 ("index", FL.val 1)] } :=
  ⟨by decide, c5_powerlaw_params specRow4FGLExample (by decide)⟩

/-- C6: `SourceCatalogObject4FGL.spatial_model` returns a point model at
(`RAJ2000`, `DEJ2000`) for pointlike sources; otherwise the stripped
`Model_Form` of the extended-source row selects the constructor — `Disk`
a disk with `r_0 = Model_SemiMajor`, `Map`/`Ring`/`2D Gaussian x2` a
template read from a version-dependent path, `2D Gaussian` a Gaussian
with `sigma = Model_SemiMajor` — with eccentricity
`e = (1 - (Model_SemiMinor / Model_SemiMajor) ** 2) ** 0.5` in the disk
and Gaussian cases, and any other `Model_Form` raises `ValueError`. -/
theorem c6_spatial_dispatch (d : SpatialRow4FGL) :
    (is_pointlike_fermiBase d.extended_source_name = true →
      spatial_model_4FGL d = .ok (.point d.raj2000 d.dej2000))
    ∧ (is_pointlike_fermiBase d.extended_source_name = false →
        pyStrip d.ext.model_form = "Disk" →
        spatial_model_4FGL d = .ok (.disk d.raj2000 d.dej2000 d.ext.model_semiMajor
          ⟨(FL.val 1).sub ((d.ext.model_semiMinor.div d.ext.model_semiMajor).sq)⟩
          d.ext.model_posAng))
    ∧ (is_pointlike_fermiBase d.extended_source_name = false →
        pyStrip d.ext.model_form ∈ (["Map", "Ring", "2D Gaussian x2"] : List String) →
        spatial_model_4FGL d = .ok (.template
          (if d.ext.version < 28 then
            "$GAMMAPY_DATA/catalogs/fermi/LAT_extended_sources_8years/Templates/"
          else if d.ext.version < 32 then
            "$GAMMAPY_DATA/catalogs/fermi/Extended_12years/Templates/"
          else
            "$GAMMAPY_DATA/catalogs/fermi/Extended_14years/Templates/")
          (pyStrip d.ext.spatial_filename ++ ".gz")))
    ∧ (is_pointlike_fermiBase d.extended_source_name = false →
        pyStrip d.ext.model_form = "2D Gaussian" →
        spatial_model_4FGL d = .ok (.gaussian d.raj2000 d.dej2000 d.ext.model_semiMajor
          ⟨(FL.val 1).sub ((d.ext.model_semiMinor.div d.ext.model_semiMajor).sq)⟩
          d.ext.model_posAng))
    ∧ (is_pointlike_fermiBase d.extended_source_name = false →
        pyStrip d.ext.model_form ∉
          (["Disk", "Map", "Ring", "2D Gaussian x2", "2D Gaussian"] : List String) →
        ∃ msg, spatial_model_4FGL d = .error msg) := by
  refine ⟨fun hp => ?_, fun hp h => ?_, fun hp h => ?_, fun hp h => ?_, fun hp h => ?_⟩
  · simp [spatial_model_4FGL, hp]
  · simp [spatial_model_4FGL, hp, h]
  · simp only [List.mem_cons, List.not_mem_nil, or_false] at h
    rcases h with h | h | h <;> simp [spatial_model_4FGL, hp, h]
  · simp [spatial_model_4FGL, hp, h]
  · simp only [List.mem_cons, List.not_mem_nil, or_false, not_or] at h
    obtain ⟨h1, h2, h3, h4, h5⟩ := h
    simp [spatial_model_4FGL, hp, h1, h2, h3, h4, h5]

/-- C6 witness: the dispatch evaluated on a concrete extended source with
`Model_Form == "Disk"` and on a concrete pointlike source. -/
theorem c6_witness :
    (is_pointlike_fermiBase "--" = true
      ∧ spatial_model_4FGL
          ⟨FL.val 10, FL.val 20, "--",
            ⟨"Disk", FL.val 2, FL.val 1, FL.val 0, "tmpl", 30⟩⟩
        = .ok (.point (FL.val 10) (FL.val 20)))
    ∧ (is_pointlike_fermiBase "W 51C" = false
      ∧ spatial_model_4FGL
          ⟨FL.val 10, FL.val 20, "W 51C",
            ⟨"Disk", FL.val 2, FL.val 1, FL.val 0, "tmpl", 30⟩⟩
        = .ok (.disk (FL.val 10) (FL.val 20) (FL.val 2)
            ⟨(FL.val 1).sub (((FL.val 1).div (FL.val 2)).sq)⟩ (FL.val 0))) :=
  ⟨⟨by decide,
    (c6_spatial_dispatch
      ⟨FL.val 10, FL.val 20, "--",
        ⟨"Disk", FL.val 2, FL.val 1, FL.val 0, "tmpl", 30⟩⟩).1 (by decide)⟩,
   ⟨by decide,
    (c6_spatial_dispatch
      ⟨FL.val 10, FL.val 20, "W 51C",
        ⟨"Disk", FL.val 2, FL.val 1, FL.val 0, "tmpl", 30⟩⟩).2.1 (by decide) (by decide)⟩⟩

/-- C7: `info(info)` concatenates exactly the sections named in the
comma-separated option list, always in the fixed order of the method
body — `basic, more, position, spectral, lightcurve` for the FGL/FHL
base class (with `pulsar` between `more` and `position` for the pulsar
base class) — with `"all"` expanding to every section, the morphology
block appended after position only for extended sources, and the
spectral option emitting the fit info followed by the spectral points;
consequently the order in which options are listed in the argument never
affects the output. -/
theorem c7_info_sections (secF : InfoSections) (pl : Bool) (secP : InfoSectionsPC)
    (s t : String) :
    (info_fermiBase secF pl "all"
      = secF.basic ++ secF.more
        ++ (secF.position ++ (if !pl then secF.morphology else ""))
        ++ (secF.spectral_fit ++ secF.spectral_points) ++ secF.lightcurve)
    ∧ (info_fermiPCBase secP "all"
      = secP.basic ++ secP.more ++ secP.pulsar ++ secP.position
        ++ (secP.spectral_fit ++ secP.spectral_points) ++ secP.phasogram)
    ∧ ((∀ o ∈ (["basic", "more", "position", "spectral", "lightcurve"] : List String),
          (infoOps "basic,more,position,spectral,lightcurve" s).contains o
            = (infoOps "basic,more,position,spectral,lightcurve" t).contains o) →
        info_fermiBase secF pl s = info_fermiBase secF pl t)
    ∧ ((∀ o ∈ (["basic", "more", "pulsar", "position", "spectral", "lightcurve"] :
            List String),
          (infoOps "basic,more,position,pulsar,spectral,lightcurve" s).contains o
            = (infoOps "basic,more,position,pulsar,spectral,lightcurve" t).contains o) →
        info_fermiPCBase secP s = info_fermiPCBase secP t) := by
  refine ⟨?_, ?_, fun h => ?_, fun h => ?_⟩
  · have hsplit : pySplitComma "basic,more,position,spectral,lightcurve"
        = ["basic", "more", "position", "spectral", "lightcurve"] := by decide
    simp [info_fermiBase, infoOps, hsplit]
  · have hsplit : pySplitComma "basic,more,position,pulsar,spectral,lightcurve"
        = ["basic", "more", "position", "pulsar", "spectral", "lightcurve"] := by decide
    simp [info_fermiPCBase, infoOps, hsplit]
  · have hb := h "basic" (by simp)
    have hm := h "more" (by simp)
    have hp := h "position" (by simp)
    have hs := h "spectral" (by simp)
    have hl := h "lightcurve" (by simp)
    simp only [info_fermiBase, hb, hm, hp, hs, hl]
  · have hb := h "basic" (by simp)
    have hm := h "more" (by simp)
    have hu := h "pulsar" (by simp)
    have hp := h "position" (by simp)
    have hs := h "spectral" (by simp)
    have hl := h "lightcurve" (by simp)
    simp only [info_fermiPCBase, hb, hm, hu, hp, hs, hl]

/-- C7 witness: permuting the option list leaves the report of a concrete
source unchanged. -/
theorem c7_witness :
    (∀ o ∈ (["basic", "more", "position", "spectral", "lightcurve"] : List String),
      (infoOps "basic,more,position,spectral,lightcurve" "spectral,basic").contains o
        = (infoOps "basic,more,position,spectral,lightcurve" "basic,spectral").contains o)
    ∧ info_fermiBase ⟨"B", "M", "P", "G", "F", "Q", "L"⟩ true "spectral,basic"
        = info_fermiBase ⟨"B", "M", "P", "G", "F", "Q", "L"⟩ true "basic,spectral" :=
  ⟨by decide,
    (c7_info_sections ⟨"B", "M", "P", "G", "F", "Q", "L"⟩ true
      ⟨"B", "M", "U", "P", "F", "Q", "L"⟩ "spectral,basic" "basic,spectral").2.2.1
      (by decide)⟩

/-- C8: a Fermi FGL/FHL source is pointlike exactly when its
`Extended_Source_Name`, stripped of whitespace, equals the empty string
or `"--"`; the 2FHL override instead tests that the last character of the
stripped `Source_Name` is not `e` (for a nonempty stripped name; on an
empty one the Python indexing `[-1]` would raise). -/
theorem c8_is_pointlike (ext sn : String) (c : Char)
    (hc : (pyStrip sn).data.getLast? = some c) :
    (is_pointlike_fermiBase ext = true ↔ (pyStrip ext = "" ∨ pyStrip ext = "--"))
    ∧ is_pointlike_2FHL sn = some (c != 'e') := by
  constructor
  · simp only [is_pointlike_fermiBase, pyStrip_idem, Bool.or_eq_true, beq_iff_eq]
  · simp only [is_pointlike_2FHL, hc]

/-- C8 witness: a concrete blank extended name is pointlike, and a
concrete 2FHL source name ending in `e` after stripping is extended. -/
theorem c8_witness :
    (is_pointlike_fermiBase "  " = true ↔ (pyStrip "  " = "" ∨ pyStrip "  " = "--"))
    ∧ is_pointlike_2FHL "2FHL J0526.6-6825e " = some ('e' != 'e') :=
  c8_is_pointlike "  " "2FHL J0526.6-6825e " 'e' (by decide)

/-- C9: for a 2PC spectral row whose `TS_Cutoff` and `TS_bfree` are
ordinary comparable numbers, `spectral_model` always returns a model:
`TS_Cutoff < 9` gives a power law, `TS_Cutoff >= 9` gives a
super-exponential-cutoff power law whose `index_2` is fixed to 1 when
`TS_bfree < 9`; the trailing warn-and-return-`None` branch is
unreachable under this precondition. -/
theorem c9_2pc_spectral_total (d : SpecRow2PC) (a b : ℚ)
    (ha : d.ts_cutoff = FL.val a) (hb : d.ts_bfree = FL.val b) :
    spectral_model_2PC d ≠ none
    ∧ (a < 9 → ∃ m, spectral_model_2PC d = some m
        ∧ m.tag = "PowerLawSpectralModel")
    ∧ (9 ≤ a → ∃ m, spectral_model_2PC d = some m
        ∧ m.tag = "SuperExpCutoffPowerLaw3FGLSpectralModel"
        ∧ (b < 9 → ("index_2", FL.val 1) ∈ m.pars)) := by
  rcases lt_or_le a 9 with h9 | h9
  · refine ⟨?_, fun _ => ?_, fun hle => absurd h9 (not_lt.2 hle)⟩ <;>
      simp [spectral_model_2PC, ha, FL.flt, h9]
  · rcases le_or_lt 9 b with hbf | hbf
    · refine ⟨?_, fun hlt => absurd hlt (not_lt.2 h9), fun _ => ?_⟩ <;>
        simp [spectral_model_2PC, ha, hb, FL.flt, FL.fle, not_lt.2 h9, hbf, not_lt.2 hbf]
    · refine ⟨?_, fun hlt => absurd hlt (not_lt.2 h9), fun _ => ?_⟩ <;>
        simp [spectral_model_2PC, ha, hb, FL.flt, FL.fle, not_lt.2 h9, not_le.2 hbf, hbf]

/-- A concrete 2PC spectral row with `TS_Cutoff = 25` and
`TS_bfree = 4`. -/
def specRow2PCExample : SpecRow2PC :=
  { ts_cutoff := FL.val 25
    ts_bfree := FL.val 4
    pl_scale := FL.val 1
    pl_prefactor := FL.val 1
    pl_photon_index := FL.val 2
    unc_pl_prefactor := FL.val 1
    unc_pl_photon_index := FL.val 1
    plec_photon_index := FL.val 1
    plec_exponential_index := FL.val 1
    plec_prefactor := FL.val 1
    plec_scale := FL.val 1
    plec_cutoff := FL.val 1
    unc_plec_photon_index := FL.val 1
    unc_plec_exponential_index := FL.val 1
    unc_plec_prefactor := FL.val 1
    unc_plec_cutoff := FL.val 1
    plec1_photon_index := FL.val 2
    plec1_prefactor := FL.val 3
    plec1_scale := FL.val 1
    plec1_cutoff := FL.val 5
    unc_plec1_photon_index := FL.val 1
    unc_plec1_prefactor := FL.val 1
    unc_plec1_cutoff := FL.val 1 }

/-- C9 witness: the concrete row with `TS_Cutoff = 25 >= 9` and
`TS_bfree = 4 < 9` yields a cutoff power law with `index_2` fixed
to 1. -/
theorem c9_witness :
    spectral_model_2PC specRow2PCExample ≠ none
    ∧ ∃ m, spectral_model_2PC specRow2PCExample = some m
        ∧ m.tag = "SuperExpCutoffPowerLaw3FGLSpectralModel"
        ∧ ((4 : ℚ) < 9 → ("index_2", FL.val 1) ∈ m.pars) :=
  ⟨(c9_2pc_spectral_total specRow2PCExample 25 4 rfl rfl).1,
    (c9_2pc_spectral_total specRow2PCExample 25 4 rfl rfl).2.2 (by norm_num)⟩

/-- C10: `SourceCatalogObject4FGL.lightcurve(interval)` raises
`ValueError` exactly when `interval` is neither `1-year` nor `2-month`,
or when the corresponding flux-history column or time axis is absent; in
all other cases it returns the flux-point data built from that history
column. -/
theorem c10_lightcurve (d : LightcurveRow4FGL) (interval : String) :
    (isErr (lightcurve_4FGL d interval) = true ↔
      (interval ≠ "1-year" ∧ interval ≠ "2-month")
      ∨ (interval = "1-year"
          ∧ ¬(d.has_flux_history = true ∧ d.has_time_axis = true))
      ∨ (interval = "2-month"
          ∧ ¬(d.has_flux2_history = true ∧ d.has_time_axis_2 = true)))
    ∧ (interval = "1-year" → d.has_flux_history = true → d.has_time_axis = true →
        lightcurve_4FGL d interval = .ok (lightcurveMaps "Flux_History"
          d.flux_history d.unc_flux_history_lo d.unc_flux_history_hi
          d.sqrt_ts_history))
    ∧ (interval = "2-month" → d.has_flux2_history = true → d.has_time_axis_2 = true →
        lightcurve_4FGL d interval = .ok (lightcurveMaps "Flux2_History"
          d.flux2_history d.unc_flux2_history_lo d.unc_flux2_history_hi
          d.sqrt_ts2_history)) := by
  have hne : ("1-year" : String) ≠ "2-month" := by decide
  by_cases h1 : interval = "1-year"
  · subst h1
    by_cases hf : d.has_flux_history = true <;> by_cases ht : d.has_time_axis = true <;>
      simp [lightcurve_4FGL, isErr, hne, hf, ht]
  · by_cases h2 : interval = "2-month"
    · subst h2
      by_cases hf : d.has_flux2_history = true <;>
        by_cases ht : d.has_time_axis_2 = true <;>
          simp [lightcurve_4FGL, isErr, h1, hf, ht]
    · simp [lightcurve_4FGL, isErr, h1, h2]

/-- A concrete 4FGL source-data record with both flux histories and both
time axes present. -/
def lightcurveRowExample : LightcurveRow4FGL :=
  { has_flux_history := true
    has_time_axis := true
    flux_history := [FL.val 1, FL.val 2]
    unc_flux_history_lo := [FL.val 1, FL.nan]
    unc_flux_history_hi := [FL.val 1, FL.val 1]
    sqrt_ts_history := [FL.val 3, FL.val 1]
    has_flux2_history := false
    has_time_axis_2 := false
    flux2_history := []
    unc_flux2_history_lo := []
    unc_flux2_history_hi := []
    sqrt_ts2_history := [] }

/-- C10 witness: on the concrete record, `1-year` succeeds with the maps
built from `Flux_History`, and `2-month` (whose history is absent)
raises. -/
theorem c10_witness :
    lightcurve_4FGL lightcurveRowExample "1-year"
      = .ok (lightcurveMaps "Flux_History" lightcurveRowExample.flux_history
          lightcurveRowExample.unc_flux_history_lo
          lightcurveRowExample.unc_flux_history_hi
          lightcurveRowExample.sqrt_ts_history)
    ∧ isErr (lightcurve_4FGL lightcurveRowExample "2-month") = true :=
  ⟨(c10_lightcurve lightcurveRowExample "1-year").2.1 rfl rfl rfl,
    (c10_lightcurve lightcurveRowExample "2-month").1.2
      (Or.inr (Or.inr ⟨rfl, by decide⟩))⟩
